import Mathlib

/-!
Verification of the visitor photo-identification engine of RealMeta-Museum.

The development shallowly embeds the similarity engine from the CLIP service
module (`cosineSimilarity`, `findBestMatches`, `isConfidentMatch`,
`generateImageEmbedding`) and the `POST /:qrCode/identify` route handler of
`server/src/routes/visitor.ts`.  JavaScript numbers are modelled as real
numbers, thrown exceptions as `Except` errors, and the route's interaction
with the database, the upload middleware and the filesystem as an explicit
environment record.
-/

noncomputable section

/-- Errors thrown by the embedded code.  The source throws plain `Error`
objects with distinguishing messages; each distinct failure is modelled as a
constructor.  `dimensionMismatch` is the error thrown by `cosineSimilarity`
when the two vectors have different lengths ("Embeddings must have the same
dimensions"); `fileNotFound` is thrown by `generateImageEmbedding` when the
image file does not exist; `providerFailure` stands for an error raised by
the CLIP pipeline itself; `dbConnectionFailed` stands for a rejection of
`connectToDatabase()`. -/
inductive AppError where
  | dimensionMismatch
  | fileNotFound
  | providerFailure
  | dbConnectionFailed
  deriving DecidableEq

/-- The accumulation loop of `cosineSimilarity` (part_002 lines 71–75):
`dotProduct a b` is the sum of the pairwise products of the common prefix of
the two lists.  The same function applied to a vector and itself yields the
sum-of-squares accumulators `magnitudeA` / `magnitudeB` before the square
root is taken. -/
def dotProduct : List ℝ → List ℝ → ℝ
  | x :: xs, y :: ys => x * y + dotProduct xs ys
  | _, _ => 0

/-- Euclidean norm of a vector as computed by the source (part_002 lines
78–79): the square root of the sum of the squares of its entries. -/
def magnitude (v : List ℝ) : ℝ :=
  Real.sqrt (dotProduct v v)

/-- Embedding of `cosineSimilarity` (part_002 lines 61–90).  Vectors of
different lengths throw ("Embeddings must have the same dimensions"); if
either magnitude is zero the function returns `0` to avoid dividing by zero;
otherwise it returns the dot product divided by the product of the
magnitudes. -/
def cosineSimilarity (a b : List ℝ) : Except AppError ℝ :=
  if a.length ≠ b.length then
    .error .dimensionMismatch
  else if magnitude a = 0 ∨ magnitude b = 0 then
    .ok 0
  else
    .ok (dotProduct a b / (magnitude a * magnitude b))

/-- A catalog entry (an `Artwork` document).  Only the fields the core reads
are modelled: the identifier, a piece of display metadata standing for all
pass-through fields, and the optional precomputed CLIP embedding
(`imageEmbedding?: number[]` in `models/Artwork.ts`; `none` models an absent
field, `some []` an empty array). -/
structure Artwork where
  id : Nat
  title : String
  imageEmbedding : Option (List ℝ)

/-- Embedding of the `MatchResult` interface of part_002 (lines 98–101): an
artwork paired with its similarity score. -/
structure MatchResult where
  artwork : Artwork
  score : ℝ

/-- The filter predicate of `findBestMatches` (part_002 line 110):
`artwork.imageEmbedding && artwork.imageEmbedding.length > 0`.  The same
condition is what the route's Mongo query
`imageEmbedding: { $exists: true, $ne: [] }` selects (visitor.ts lines
106–109). -/
def hasEmbedding (a : Artwork) : Bool :=
  match a.imageEmbedding with
  | some v => decide (0 < v.length)
  | none => false

/-- Embedding of the `.map` step of `findBestMatches` (part_002 lines
111–114): score each (already filtered) artwork against the query, from left
to right; a thrown `cosineSimilarity` error aborts the whole computation, as
a thrown exception does in the source.  The `getD []` is only reached on
artworks that passed the `hasEmbedding` filter, whose embedding is `some`. -/
def scoreAll (q : List ℝ) : List Artwork → Except AppError (List MatchResult)
  | [] => .ok []
  | a :: rest =>
    match cosineSimilarity q (a.imageEmbedding.getD []) with
    | .error e => .error e
    | .ok s =>
      match scoreAll q rest with
      | .error e => .error e
      | .ok ms => .ok (⟨a, s⟩ :: ms)

/-- The sort order used at part_002 line 117: the comparator
`(a, b) => b.score - a.score` orders by descending score. -/
def scoreGE (x y : MatchResult) : Prop :=
  y.score ≤ x.score

instance : DecidableRel scoreGE :=
  fun x y => inferInstanceAs (Decidable (y.score ≤ x.score))

instance : IsTotal MatchResult scoreGE :=
  ⟨fun x y => le_total y.score x.score⟩

instance : IsTrans MatchResult scoreGE :=
  ⟨fun _ _ _ h1 h2 => le_trans h2 h1⟩

/-- Embedding of `matches.sort((a, b) => b.score - a.score)` (part_002 line
117).  `Array.prototype.sort` is stable (ES2019), and any two stable sorts
by the same total preorder agree, so the stable `insertionSort` is a faithful
model of the engine's sort. -/
def sortMatches (ms : List MatchResult) : List MatchResult :=
  ms.insertionSort scoreGE

/-- Embedding of `findBestMatches` (part_002 lines 103–121): filter out
artworks without a non-empty embedding, score the rest, sort by descending
score, and keep the first `topN` entries. -/
def findBestMatches (q : List ℝ) (artworks : List Artwork)
    (topN : Nat := 3) : Except AppError (List MatchResult) :=
  match scoreAll q (artworks.filter hasEmbedding) with
  | .error e => .error e
  | .ok ms => .ok ((sortMatches ms).take topN)

/-- Embedding of `isConfidentMatch` (part_002 lines 129–131):
`score >= threshold`, with the threshold defaulting to `0.7`. -/
def isConfidentMatch (score : ℝ) (threshold : ℝ := 0.7) : Bool :=
  decide (threshold ≤ score)

/-- The classification step of the identify route (visitor.ts lines 138 and
161–162), with `isConfidentMatch`'s threshold parameter exposed:
`confident = matches.length > 0 && isConfidentMatch(matches[0].score)`,
`best = matches[0]` (when present) and `alternatives = matches.slice(1)`. -/
structure Classification where
  confident : Bool
  best : Option MatchResult
  alternatives : List MatchResult

/-- The classify step itself (see `Classification`). -/
def classify (ranked : List MatchResult) (threshold : ℝ) : Classification :=
  { confident :=
      match ranked with
      | [] => false
      | m0 :: _ => isConfidentMatch m0.score threshold
    best := ranked.head?
    alternatives := ranked.drop 1 }

/-- Embedding of `generateImageEmbedding` (part_002 lines 28–53): if the
image file does not exist the function throws ("Image file not found"),
otherwise it returns whatever the CLIP pipeline produced — including the
pipeline's own failure, which the `catch` block re-throws unchanged.  No
fallback value is ever substituted. -/
def generateImageEmbedding (fileExists : Bool)
    (providerResult : Except AppError (List ℝ)) : Except AppError (List ℝ) :=
  if fileExists then providerResult else .error .fileNotFound

/-- The slice of the response-formatting closure `formatArtwork` (visitor.ts
lines 141–152) relevant to the claims: the identifier and title pass through
and the score is reported as `Math.round(score * 100)`.  Mathlib's `round`
is `⌊x + 1/2⌋`, which agrees with `Math.round` on every real input. -/
structure FormattedArtwork where
  id : Nat
  title : String
  matchScore : ℤ

/-- Formatter for one matched artwork (visitor.ts lines 141–152). -/
def formatArtwork (a : Artwork) (score : ℝ) : FormattedArtwork :=
  { id := a.id, title := a.title, matchScore := round (score * 100) }

/-- A museum document, reduced to the fields the identify route reads. -/
structure Museum where
  id : Nat
  name : String

/-- The environment one `POST /:qrCode/identify` request runs in:
`file` is the upload stored by the multer middleware (`none` when no photo
field was sent, in which case nothing was written to disk); `dbOk` is whether
`connectToDatabase()` succeeds; `museum` is the result of the QR-code lookup;
`catalog` is the museum's artwork collection; `tempReadable` is whether the
stored temp file still exists when `generateImageEmbedding` reads it; and
`provider` is the CLIP pipeline's answer for this image. -/
structure IdentifyEnv where
  file : Option String
  dbOk : Bool
  museum : Option Museum
  catalog : List Artwork
  tempReadable : Bool
  provider : Except AppError (List ℝ)

/-- The distinct response shapes the identify route can produce:
400 without photo, 404 for an unknown QR code, the distinct
`success: false` "no artworks with embeddings" outcome, the match payload of
a 200, and the 500 produced by the `catch` block. -/
inductive IdentifyResponse where
  | badRequest (msg : String)
  | notFound (msg : String)
  | noArtworks (museumId : Nat) (museumName : String)
  | success (confident : Bool) (museumId : Nat) (museumName : String)
      (bestMatch : Option FormattedArtwork)
      (alternatives : List FormattedArtwork) (totalArtworks : Nat)
  | serverError (e : AppError)

/-- The body of the identify route's `try` block from the point where
`tempFilePath` has been assigned (visitor.ts lines 97–164): museum lookup,
the embedding-bearing artwork query, the early "no artworks" return, the
embedding call, ranking with `topN = 3`, the confidence decision (with
`isConfidentMatch`'s default threshold), and response formatting.  A thrown
error is the `serverError` branch of the `catch` block (lines 166–168). -/
def identifyBody (env : IdentifyEnv) : IdentifyResponse :=
  match env.museum with
  | none => .notFound "Museum not found"
  | some m =>
    let artworks := env.catalog.filter hasEmbedding
    if artworks.length = 0 then
      .noArtworks m.id m.name
    else
      match generateImageEmbedding env.tempReadable env.provider with
      | .error e => .serverError e
      | .ok v =>
        match findBestMatches v artworks 3 with
        | .error e => .serverError e
        | .ok ranked =>
          .success
            (match ranked with
              | [] => false
              | m0 :: _ => isConfidentMatch m0.score)
            m.id m.name
            (ranked.head?.map fun mr => formatArtwork mr.artwork mr.score)
            ((ranked.drop 1).map fun mr => formatArtwork mr.artwork mr.score)
            artworks.length

/-- Embedding of the whole `POST /:qrCode/identify` handler (visitor.ts
lines 73–180).  The result is the response, whether the stored temp file
still exists afterwards, and the catalog after the request.  The `finally`
block (lines 169–179) deletes the temp file only when `tempFilePath` was
assigned; `connectToDatabase()` is awaited (line 77) before that assignment
(line 94), so when it rejects the stored upload survives the request. -/
def identifyHandler (env : IdentifyEnv) :
    IdentifyResponse × Bool × List Artwork :=
  match env.dbOk, env.file with
  | false, f => (.serverError .dbConnectionFailed, f.isSome, env.catalog)
  | true, none => (.badRequest "No photo uploaded", false, env.catalog)
  | true, some _ => (identifyBody env, false, env.catalog)

/-- C1: `cosineSimilarity` fails with the dimension-mismatch error exactly
when the input lengths differ; with equal lengths it returns `0` when either
vector has zero Euclidean norm, and otherwise returns the dot product of the
two vectors divided by the product of their Euclidean norms. -/
theorem cosineSimilarity_spec (a b : List ℝ) :
    (a.length ≠ b.length → cosineSimilarity a b = .error .dimensionMismatch) ∧
    (a.length = b.length → (magnitude a = 0 ∨ magnitude b = 0) →
      cosineSimilarity a b = .ok 0) ∧
    (a.length = b.length → magnitude a ≠ 0 → magnitude b ≠ 0 →
      cosineSimilarity a b = .ok (dotProduct a b / (magnitude a * magnitude b))) := by
  refine ⟨fun h => ?_, fun h hz => ?_, fun h ha hb => ?_⟩
  · simp [cosineSimilarity, h]
  · simp [cosineSimilarity, h, hz]
  · simp [cosineSimilarity, h, ha, hb]

/-- Concrete instantiation of `cosineSimilarity_spec`: a length mismatch, a
zero vector, and a generic pair. -/
theorem cosineSimilarity_spec_witness :
    cosineSimilarity [(1 : ℝ)] [1, 2] = .error .dimensionMismatch ∧
    cosineSimilarity [(0 : ℝ)] [0] = .ok 0 ∧
    cosineSimilarity [(1 : ℝ)] [1] =
      .ok (dotProduct [1] [1] / (magnitude [1] * magnitude [1])) :=
  ⟨(cosineSimilarity_spec [1] [1, 2]).1 (by norm_num),
   (cosineSimilarity_spec [0] [0]).2.1 rfl
     (Or.inl (by simp [magnitude, dotProduct])),
   (cosineSimilarity_spec [1] [1]).2.2 rfl
     (by norm_num [magnitude, dotProduct])
     (by norm_num [magnitude, dotProduct])⟩

/-- If the query and the candidate have the same length, `cosineSimilarity`
succeeds. -/
theorem cosineSimilarity_ok_of_length_eq {a b : List ℝ}
    (h : a.length = b.length) : ∃ s, cosineSimilarity a b = .ok s := by
  by_cases hz : magnitude a = 0 ∨ magnitude b = 0
  · exact ⟨0, by simp [cosineSimilarity, h, hz]⟩
  · push_neg at hz
    exact ⟨dotProduct a b / (magnitude a * magnitude b),
      by simp [cosineSimilarity, h, hz.1, hz.2]⟩

/-- `scoreAll` succeeds on a list of artworks whose embeddings all have the
query's length, and then pairs the artworks in order. -/
theorem scoreAll_ok_of_lengths {q : List ℝ} :
    ∀ L : List Artwork,
      (∀ a ∈ L, (a.imageEmbedding.getD []).length = q.length) →
      ∃ ms, scoreAll q L = .ok ms ∧ ms.map MatchResult.artwork = L := by
  intro L
  induction L with
  | nil => exact fun _ => ⟨[], rfl, rfl⟩
  | cons a rest ih =>
    intro h
    obtain ⟨s, hs⟩ :=
      cosineSimilarity_ok_of_length_eq (h a (List.mem_cons_self a rest)).symm
    obtain ⟨ms, hms, hmap⟩ := ih fun x hx => h x (List.mem_cons_of_mem a hx)
    exact ⟨⟨a, s⟩ :: ms, by simp [scoreAll, hs, hms], by simp [hmap]⟩

/-- If `scoreAll` fails, the error is a dimension mismatch. -/
theorem scoreAll_error_eq {q : List ℝ} :
    ∀ {L : List Artwork} {e : AppError},
      scoreAll q L = .error e → e = .dimensionMismatch := by
  intro L
  induction L with
  | nil => intro e h; simp [scoreAll] at h
  | cons a rest ih =>
    intro e h
    rw [scoreAll] at h
    rcases hc : cosineSimilarity q (a.imageEmbedding.getD []) with e' | s
    · rw [hc] at h
      have : e' = .dimensionMismatch := by
        rw [cosineSimilarity] at hc
        split at hc
        · cases hc; rfl
        · split at hc <;> cases hc
      cases h
      exact this
    · rw [hc] at h
      rcases hr : scoreAll q rest with e' | ms
      · rw [hr] at h; cases h; exact ih hr
      · rw [hr] at h; cases h

/-- A successful `cosineSimilarity` call implies the lengths agreed. -/
theorem cosineSimilarity_length_of_ok {a b : List ℝ} {s : ℝ}
    (h : cosineSimilarity a b = .ok s) : a.length = b.length := by
  rw [cosineSimilarity] at h
  split at h
  · cases h
  · next hlen => exact not_ne_iff.mp hlen

/-- If `scoreAll` succeeds, every embedding in the list had the query's
length. -/
theorem scoreAll_lengths_of_ok {q : List ℝ} :
    ∀ {L : List Artwork} {ms : List MatchResult},
      scoreAll q L = .ok ms →
      ∀ a ∈ L, (a.imageEmbedding.getD []).length = q.length := by
  intro L
  induction L with
  | nil => intro ms _ a ha; cases ha
  | cons x rest ih =>
    intro ms h a ha
    rw [scoreAll] at h
    rcases hc : cosineSimilarity q (x.imageEmbedding.getD []) with e' | s
    · rw [hc] at h; cases h
    · rw [hc] at h
      rcases hr : scoreAll q rest with e' | ms' <;> rw [hr] at h
      · cases h
      · rcases List.mem_cons.mp ha with rfl | ha'
        · exact (cosineSimilarity_length_of_ok hc).symm
        · exact ih hr a ha'

/-- C2 (amended): when every stored non-empty embedding has the query's
length, `findBestMatches` returns exactly the candidates possessing a
non-empty embedding — scored in their original order by `scoreAll` —
sorted in descending score order with a stable tie-break (score ties keep
their original relative order), truncated to the first `topK` entries (or
fewer when fewer candidates exist), and `topK = 0` yields `[]` without
error. -/
theorem findBestMatches_spec (q : List ℝ) (as : List Artwork) (k : Nat)
    (hdim : ∀ a ∈ as, hasEmbedding a = true →
      (a.imageEmbedding.getD []).length = q.length) :
    ∃ ms : List MatchResult,
      scoreAll q (as.filter hasEmbedding) = .ok ms ∧
      ms.map MatchResult.artwork = as.filter hasEmbedding ∧
      findBestMatches q as k = .ok ((sortMatches ms).take k) ∧
      (sortMatches ms).Perm ms ∧
      (sortMatches ms).Sorted scoreGE ∧
      (∀ x y : MatchResult, List.Sublist [x, y] ms → x.score = y.score →
        List.Sublist [x, y] (sortMatches ms)) ∧
      ((sortMatches ms).take k).length = min k (as.filter hasEmbedding).length ∧
      (k = 0 → findBestMatches q as 0 = .ok []) := by
  obtain ⟨ms, hms, hmap⟩ :=
    scoreAll_ok_of_lengths (as.filter hasEmbedding) fun a ha =>
      hdim a (List.mem_filter.mp ha).1 (List.mem_filter.mp ha).2
  refine ⟨ms, hms, hmap, ?_, List.perm_insertionSort scoreGE ms,
    List.sorted_insertionSort scoreGE ms, ?_, ?_, ?_⟩
  · simp [findBestMatches, hms]
  · intro x y hsub heq
    exact List.pair_sublist_insertionSort (le_of_eq heq.symm) hsub
  · have h1 : (sortMatches ms).length = ms.length :=
      (List.perm_insertionSort scoreGE ms).length_eq
    rw [List.length_take, h1, ← hmap, List.length_map]
  · intro _
    simp [findBestMatches, hms]

/-- Concrete instantiation of `findBestMatches_spec`: one query, two indexed
candidates and one unindexed candidate. -/
theorem findBestMatches_spec_witness :
    ∃ ms : List MatchResult,
      scoreAll [(1 : ℝ), 0]
          (([⟨1, "a", some [1, 0]⟩, ⟨2, "b", none⟩, ⟨3, "c", some [0, 1]⟩] :
            List Artwork).filter hasEmbedding) = .ok ms ∧
      ms.map MatchResult.artwork =
        ([⟨1, "a", some [1, 0]⟩, ⟨2, "b", none⟩, ⟨3, "c", some [0, 1]⟩] :
          List Artwork).filter hasEmbedding ∧
      findBestMatches [(1 : ℝ), 0]
          [⟨1, "a", some [1, 0]⟩, ⟨2, "b", none⟩, ⟨3, "c", some [0, 1]⟩] 2 =
        .ok ((sortMatches ms).take 2) ∧
      (sortMatches ms).Perm ms ∧
      (sortMatches ms).Sorted scoreGE ∧
      (∀ x y : MatchResult, List.Sublist [x, y] ms → x.score = y.score →
        List.Sublist [x, y] (sortMatches ms)) ∧
      ((sortMatches ms).take 2).length =
        min 2 (([⟨1, "a", some [1, 0]⟩, ⟨2, "b", none⟩, ⟨3, "c", some [0, 1]⟩] :
          List Artwork).filter hasEmbedding).length ∧
      (2 = 0 → findBestMatches [(1 : ℝ), 0]
          [⟨1, "a", some [1, 0]⟩, ⟨2, "b", none⟩, ⟨3, "c", some [0, 1]⟩] 0 =
        .ok []) :=
  findBestMatches_spec [(1 : ℝ), 0]
    [⟨1, "a", some [1, 0]⟩, ⟨2, "b", none⟩, ⟨3, "c", some [0, 1]⟩] 2
    (by
      intro a ha hemb
      simp only [List.mem_cons, List.not_mem_nil, or_false] at ha
      rcases ha with rfl | rfl | rfl <;> simp_all [hasEmbedding])

/-- C2, as stated, is false: a candidate whose non-empty stored embedding has
a length different from the query's makes `findBestMatches` throw instead of
returning the filtered candidates: here the single candidate has the
non-empty embedding `[1]` while the query is `[1, 0]`. -/
theorem findBestMatches_strict_counterexample :
    findBestMatches [(1 : ℝ), 0] [⟨7, "bad", some [1]⟩] 3 =
      .error .dimensionMismatch := by
  simp [findBestMatches, scoreAll, cosineSimilarity, hasEmbedding,
    List.filter]

/-- C3: on a non-empty ranked list, for every threshold, the classification
step marks the match confident exactly when the top score is at least the
threshold (so a top score equal to the threshold is confident), and in both
cases the best match is the first ranked candidate and the alternatives are
the remaining ones in order. -/
theorem classify_spec (m0 : MatchResult) (rest : List MatchResult) (t : ℝ) :
    ((classify (m0 :: rest) t).confident = true ↔ t ≤ m0.score) ∧
    (classify (m0 :: rest) t).best = some m0 ∧
    (classify (m0 :: rest) t).alternatives = rest := by
  refine ⟨?_, rfl, rfl⟩
  simp [classify, isConfidentMatch]

/-- If some artwork in the list carries an embedding whose length differs
from the query's, `scoreAll` throws the dimension-mismatch error. -/
theorem scoreAll_error_of_bad {q : List ℝ} {L : List Artwork}
    (hbad : ∃ a ∈ L, (a.imageEmbedding.getD []).length ≠ q.length) :
    scoreAll q L = .error .dimensionMismatch := by
  rcases h : scoreAll q L with e | ms
  · cases scoreAll_error_eq h
    rfl
  · obtain ⟨a, ha, hne⟩ := hbad
    exact absurd (scoreAll_lengths_of_ok h a ha) hne

/-- C4 (amended): a candidate whose stored non-empty embedding has a length
different from the query's is not excluded: `findBestMatches` throws the
dimension-mismatch error, aborting the whole ranking, and the identify
route's `catch` turns the request into an error response instead of
completing for the remaining candidates. -/
theorem findBestMatches_mismatch_spec (q : List ℝ) (as : List Artwork)
    (k : Nat)
    (hbad : ∃ a ∈ as, hasEmbedding a = true ∧
      (a.imageEmbedding.getD []).length ≠ q.length) :
    findBestMatches q as k = .error .dimensionMismatch ∧
    ∀ (env : IdentifyEnv) (m : Museum),
      env.dbOk = true → env.file.isSome = true → env.museum = some m →
      env.catalog = as →
      generateImageEmbedding env.tempReadable env.provider = .ok q →
      (identifyHandler env).1 = .serverError .dimensionMismatch := by
  obtain ⟨a, ha, hemb, hlen⟩ := hbad
  have hmem : a ∈ as.filter hasEmbedding := List.mem_filter.mpr ⟨ha, hemb⟩
  have herr : ∀ k', findBestMatches q as k' = .error .dimensionMismatch := by
    intro k'
    have : scoreAll q (as.filter hasEmbedding) = .error .dimensionMismatch :=
      scoreAll_error_of_bad ⟨a, hmem, hlen⟩
    simp [findBestMatches, this]
  refine ⟨herr k, ?_⟩
  intro env m hdb hf hm hcat hgen
  obtain ⟨p, hp⟩ := Option.isSome_iff_exists.mp hf
  have herr1 : scoreAll q (as.filter hasEmbedding) = .error .dimensionMismatch :=
    scoreAll_error_of_bad ⟨a, hmem, hlen⟩
  have hlenpos : (as.filter hasEmbedding).length ≠ 0 :=
    Nat.pos_iff_ne_zero.mp (List.length_pos.mpr (List.ne_nil_of_mem hmem))
  simp [identifyHandler, hdb, hp, identifyBody, hm, hcat, hlenpos, hgen,
    findBestMatches, herr1]

/-- Concrete instantiation of `findBestMatches_mismatch_spec`: one
well-indexed candidate and one stale two-dimensional candidate against a
one-dimensional query; both the engine call and the whole request fail. -/
theorem findBestMatches_mismatch_spec_witness :
    findBestMatches [(2 : ℝ)] [⟨1, "w1", some [0.5]⟩, ⟨2, "w2", some [1, 2, 3]⟩] 4 =
      .error .dimensionMismatch ∧
    (identifyHandler
      ⟨some "p", true, some ⟨5, "M"⟩,
        [⟨1, "w1", some [0.5]⟩, ⟨2, "w2", some [1, 2, 3]⟩], true,
        .ok [(2 : ℝ)]⟩).1 = .serverError .dimensionMismatch := by
  have h := findBestMatches_mismatch_spec [(2 : ℝ)]
    [⟨1, "w1", some [0.5]⟩, ⟨2, "w2", some [1, 2, 3]⟩] 4
    ⟨⟨2, "w2", some [1, 2, 3]⟩, by simp, by simp [hasEmbedding], by simp⟩
  exact ⟨h.1, h.2 _ ⟨5, "M"⟩ rfl rfl rfl rfl rfl⟩

/-- C4, as stated, is false: with a matching candidate and a stale
mismatched candidate, the ranking does not complete for the remaining
candidates — the whole call throws. -/
theorem findBestMatches_no_exclusion_counterexample :
    findBestMatches [(1 : ℝ)] [⟨1, "good", some [1]⟩, ⟨2, "stale", some [1, 2]⟩] 3 =
      .error .dimensionMismatch := by
  have h1 : scoreAll [(1 : ℝ)]
      (([⟨1, "good", some [1]⟩, ⟨2, "stale", some [1, 2]⟩] :
        List Artwork).filter hasEmbedding) = .error .dimensionMismatch :=
    scoreAll_error_of_bad
      ⟨⟨2, "stale", some [1, 2]⟩, by simp [hasEmbedding], by simp⟩
  simp [findBestMatches, h1]

/-- C6: a missing image file or a provider error makes
`generateImageEmbedding` fail (never substituting any vector), and when the
embedding step of the identify flow fails with any error the request is
answered with that error — a shape distinct from both a match result and the
"no candidates" outcome. -/
theorem identify_embedding_failure_spec :
    (∀ pr : Except AppError (List ℝ),
      generateImageEmbedding false pr = .error .fileNotFound) ∧
    (∀ e : AppError, generateImageEmbedding true (.error e) = .error e) ∧
    ∀ (env : IdentifyEnv) (m : Museum) (e : AppError),
      env.dbOk = true → env.file.isSome = true → env.museum = some m →
      (env.catalog.filter hasEmbedding).length ≠ 0 →
      generateImageEmbedding env.tempReadable env.provider = .error e →
      (identifyHandler env).1 = .serverError e ∧
      (∀ c mi mn bm al tot,
        (IdentifyResponse.serverError e) ≠ .success c mi mn bm al tot) ∧
      (∀ mi mn, (IdentifyResponse.serverError e) ≠ .noArtworks mi mn) := by
  refine ⟨fun pr => rfl, fun e => rfl, ?_⟩
  intro env m e hdb hf hm hne hgen
  obtain ⟨p, hp⟩ := Option.isSome_iff_exists.mp hf
  refine ⟨?_, fun c mi mn bm al tot => by simp, fun mi mn => by simp⟩
  simp [identifyHandler, hdb, hp, identifyBody, hm, hne, hgen]

/-- Concrete instantiation of `identify_embedding_failure_spec`: the stored
temp file has vanished by the time the provider reads it, and the request is
answered with the file-not-found error. -/
theorem identify_embedding_failure_spec_witness :
    (identifyHandler
      ⟨some "p", true, some ⟨1, "M"⟩, [⟨1, "a", some [1]⟩], false,
        .ok [(1 : ℝ)]⟩).1 = .serverError .fileNotFound ∧
    (∀ c mi mn bm al tot,
      (IdentifyResponse.serverError .fileNotFound) ≠
        .success c mi mn bm al tot) ∧
    (∀ mi mn,
      (IdentifyResponse.serverError .fileNotFound) ≠ .noArtworks mi mn) :=
  identify_embedding_failure_spec.2.2
    ⟨some "p", true, some ⟨1, "M"⟩, [⟨1, "a", some [1]⟩], false, .ok [(1 : ℝ)]⟩
    ⟨1, "M"⟩ .fileNotFound rfl rfl rfl (by simp [hasEmbedding]) rfl

/-- On every request where `connectToDatabase()` succeeds, the `finally`
block removes the stored transient file — on the success, ambiguous,
no-candidates, museum-not-found, embedding-failure and ranking-failure paths
alike. -/
theorem identify_cleanup_when_connected (env : IdentifyEnv)
    (hdb : env.dbOk = true) : (identifyHandler env).2.1 = false := by
  rcases env with ⟨f, db, mus, cat, tr, pr⟩
  cases hdb
  cases f <;> rfl

/-- C7 is violated by the code on one exit path: when a photo has been
stored by the upload middleware but `connectToDatabase()` (awaited before
`tempFilePath` is assigned) rejects, the `finally` block sees a null
`tempFilePath` and the stored transient file survives the request, which is
answered with the connection error. -/
theorem identify_cleanup_leak :
    (identifyHandler
      ⟨some "visitor_1.jpg", false, none, [], true, .ok []⟩).2.1 = true ∧
    (identifyHandler
      ⟨some "visitor_1.jpg", false, none, [], true, .ok []⟩).1 =
      .serverError .dbConnectionFailed :=
  ⟨rfl, rfl⟩

/-- C8: when the museum is found but its catalog holds no artwork with a
non-empty embedding, the identify route answers with the distinct
"no artworks with embeddings" outcome — a constructor different from the
match-result shape, so it can never be confused with a low-confidence match
or a `confident = false` result with a null best match. -/
theorem identify_no_candidates_spec (env : IdentifyEnv) (m : Museum)
    (hdb : env.dbOk = true) (hf : env.file.isSome = true)
    (hm : env.museum = some m)
    (hempty : (env.catalog.filter hasEmbedding).length = 0) :
    (identifyHandler env).1 = .noArtworks m.id m.name ∧
    (∀ c mi mn bm al tot,
      (IdentifyResponse.noArtworks m.id m.name) ≠
        .success c mi mn bm al tot) := by
  obtain ⟨p, hp⟩ := Option.isSome_iff_exists.mp hf
  refine ⟨?_, fun c mi mn bm al tot => by simp⟩
  simp [identifyHandler, hdb, hp, identifyBody, hm, hempty]

/-- Concrete instantiation of `identify_no_candidates_spec`: a catalog whose
single entry lacks an embedding. -/
theorem identify_no_candidates_spec_witness :
    (identifyHandler
      ⟨some "p", true, some ⟨9, "Louvre"⟩, [⟨3, "x", none⟩], true,
        .ok [(1 : ℝ)]⟩).1 = .noArtworks 9 "Louvre" ∧
    (∀ c mi mn bm al tot,
      (IdentifyResponse.noArtworks 9 "Louvre") ≠
        .success c mi mn bm al tot) :=
  identify_no_candidates_spec
    ⟨some "p", true, some ⟨9, "Louvre"⟩, [⟨3, "x", none⟩], true, .ok [(1 : ℝ)]⟩
    ⟨9, "Louvre"⟩ rfl rfl rfl (by simp [hasEmbedding])

/-- C9: the identify request never writes to the catalog: on every input the
catalog after the request is the catalog before it. -/
theorem identify_catalog_readonly (env : IdentifyEnv) :
    (identifyHandler env).2.2 = env.catalog := by
  rcases env with ⟨f, db, mus, cat, tr, pr⟩
  cases db <;> cases f <;> rfl

/-- C10: the identify route always decides confidence with the fixed cutoff
0.7: `isConfidentMatch` applied without a second argument is
`0.7 ≤ score`, the handler takes no threshold input at all, and every
successful response carries `confident = (0.7 ≤ top score)`. -/
theorem identify_threshold_fixed (env : IdentifyEnv) (m : Museum)
    (v : List ℝ) (m0 : MatchResult) (rest : List MatchResult)
    (hdb : env.dbOk = true) (hf : env.file.isSome = true)
    (hm : env.museum = some m)
    (hne : (env.catalog.filter hasEmbedding).length ≠ 0)
    (hemb : generateImageEmbedding env.tempReadable env.provider = .ok v)
    (hrank : findBestMatches v (env.catalog.filter hasEmbedding) 3 =
      .ok (m0 :: rest)) :
    (identifyHandler env).1 =
      .success (decide ((0.7 : ℝ) ≤ m0.score)) m.id m.name
        (some (formatArtwork m0.artwork m0.score))
        (rest.map fun mr => formatArtwork mr.artwork mr.score)
        ((env.catalog.filter hasEmbedding).length) ∧
    (∀ s : ℝ, isConfidentMatch s = decide ((0.7 : ℝ) ≤ s)) := by
  obtain ⟨p, hp⟩ := Option.isSome_iff_exists.mp hf
  refine ⟨?_, fun s => rfl⟩
  simp [identifyHandler, hdb, hp, identifyBody, hm, hne, hemb, hrank,
    isConfidentMatch]

/-- The scoring of the one-candidate catalog used by witnesses: the artwork
whose embedding equals the query scores exactly 1. -/
theorem cosineSimilarity_self_one :
    cosineSimilarity [(1 : ℝ)] [1] = .ok 1 := by
  norm_num [cosineSimilarity, magnitude, dotProduct, Real.sqrt_one]

/-- Ranking the one-candidate witness catalog returns that candidate with
score 1. -/
theorem findBestMatches_single :
    findBestMatches [(1 : ℝ)]
      (([⟨1, "nightwatch", some [1]⟩] : List Artwork).filter hasEmbedding) 3 =
      .ok [⟨⟨1, "nightwatch", some [1]⟩, 1⟩] := by
  have h1 : scoreAll [(1 : ℝ)]
      ((([⟨1, "nightwatch", some [1]⟩] : List Artwork).filter
        hasEmbedding).filter hasEmbedding) =
      .ok [⟨⟨1, "nightwatch", some [1]⟩, 1⟩] := by
    simp [scoreAll, hasEmbedding, List.filter, cosineSimilarity_self_one]
  simp only [findBestMatches, h1]
  simp [sortMatches]

/-- Concrete instantiation of `identify_threshold_fixed`: a single-candidate
catalog whose entry matches the query exactly. -/
theorem identify_threshold_fixed_witness :
    (identifyHandler
      ⟨some "p", true, some ⟨5, "Rijks"⟩, [⟨1, "nightwatch", some [1]⟩],
        true, .ok [(1 : ℝ)]⟩).1 =
      .success (decide ((0.7 : ℝ) ≤
          (⟨⟨1, "nightwatch", some [1]⟩, 1⟩ : MatchResult).score))
        5 "Rijks"
        (some (formatArtwork ⟨1, "nightwatch", some [1]⟩ 1)) [] 1 ∧
    (∀ s : ℝ, isConfidentMatch s = decide ((0.7 : ℝ) ≤ s)) :=
  identify_threshold_fixed
    ⟨some "p", true, some ⟨5, "Rijks"⟩, [⟨1, "nightwatch", some [1]⟩], true,
      .ok [(1 : ℝ)]⟩
    ⟨5, "Rijks"⟩ [1] ⟨⟨1, "nightwatch", some [1]⟩, 1⟩ []
    rfl rfl rfl (by simp [hasEmbedding]) rfl findBestMatches_single

/-- The sum of squares accumulated by the similarity loop is nonnegative. -/
theorem dotProduct_self_nonneg : ∀ v : List ℝ, 0 ≤ dotProduct v v := by
  intro v
  induction v with
  | nil => simp [dotProduct]
  | cons x xs ih =>
    simp only [dotProduct]
    have := mul_self_nonneg x
    linarith

/-- Cauchy–Schwarz for the similarity loop's accumulators: the square of the
dot product is at most the product of the two sums of squares. -/
theorem dotProduct_sq_le : ∀ a b : List ℝ,
    (dotProduct a b) ^ 2 ≤ dotProduct a a * dotProduct b b := by
  intro a
  induction a with
  | nil => intro b; simp [dotProduct]
  | cons x xs ih =>
    intro b
    cases b with
    | nil =>
      simp [dotProduct, mul_nonneg (dotProduct_self_nonneg (x :: xs))]
    | cons y ys =>
      have hd := ih ys
      have hA := dotProduct_self_nonneg xs
      have hB := dotProduct_self_nonneg ys
      simp only [dotProduct]
      rcases eq_or_lt_of_le hA with hA0 | hA0
      · have hd0 : dotProduct xs ys = 0 := by
          nlinarith [sq_nonneg (dotProduct xs ys)]
        rw [hd0, ← hA0]
        nlinarith [mul_nonneg (mul_self_nonneg x) hB]
      · have h1 : 0 ≤ (dotProduct xs xs * y - x * dotProduct xs ys) ^ 2 :=
          sq_nonneg _
        have h2 : x ^ 2 * (dotProduct xs ys) ^ 2 ≤
            x ^ 2 * (dotProduct xs xs * dotProduct ys ys) :=
          mul_le_mul_of_nonneg_left hd (sq_nonneg x)
        have h3 : dotProduct xs xs * (dotProduct xs ys) ^ 2 ≤
            dotProduct xs xs * (dotProduct xs xs * dotProduct ys ys) :=
          mul_le_mul_of_nonneg_left hd (le_of_lt hA0)
        have h4 : dotProduct xs xs * ((x * y + dotProduct xs ys) ^ 2) ≤
            dotProduct xs xs *
              ((x * x + dotProduct xs xs) * (y * y + dotProduct ys ys)) := by
          nlinarith [h1, h2, h3]
        exact le_of_mul_le_mul_left h4 hA0

/-- A successful similarity score lies in `[-1, 1]`. -/
theorem cosineSimilarity_mem_Icc {a b : List ℝ} {s : ℝ}
    (h : cosineSimilarity a b = .ok s) : -1 ≤ s ∧ s ≤ 1 := by
  rw [cosineSimilarity] at h
  split at h
  · cases h
  · split at h
    · cases h
      norm_num
    · next hz =>
      cases h
      push_neg at hz
      have hA0 : 0 ≤ dotProduct a a := dotProduct_self_nonneg a
      have hB0 : 0 ≤ dotProduct b b := dotProduct_self_nonneg b
      have hmA : 0 < magnitude a :=
        lt_of_le_of_ne (Real.sqrt_nonneg _) (Ne.symm hz.1)
      have hmB : 0 < magnitude b :=
        lt_of_le_of_ne (Real.sqrt_nonneg _) (Ne.symm hz.2)
      have hsq : (dotProduct a b / (magnitude a * magnitude b)) ^ 2 ≤ 1 := by
        rw [div_pow]
        rw [div_le_one (by positivity)]
        have : (magnitude a * magnitude b) ^ 2 =
            dotProduct a a * dotProduct b b := by
          rw [mul_pow]
          simp only [magnitude]
          rw [Real.sq_sqrt hA0, Real.sq_sqrt hB0]
        rw [this]
        exact dotProduct_sq_le a b
      exact abs_le_of_sq_le_sq' (by simpa using hsq) (by norm_num)

/-- Monotone bounds for the reported percentage. -/
theorem round_percentage_bounds {s : ℝ} (h1 : -1 ≤ s) (h2 : s ≤ 1) :
    -100 ≤ round (s * 100) ∧ round (s * 100) ≤ 100 := by
  rw [round_eq]
  constructor
  · apply Int.le_floor.mpr
    push_cast
    linarith
  · have h3 : (⌊s * 100 + 1 / 2⌋ : ℤ) < 101 := by
      apply Int.floor_lt.mpr
      push_cast
      linarith
    omega

/-- C5 (amended): every similarity score actually produced for a candidate
lies in `[-1, 1]` — not `[0, 1]`: CLIP embeddings can have negative
components, so the cosine can be negative — and consequently the reported
integer percentage `round(score * 100)` lies in `[-100, 100]`. -/
theorem cosineSimilarity_bounds (a b : List ℝ) (s : ℝ)
    (h : cosineSimilarity a b = .ok s) :
    -1 ≤ s ∧ s ≤ 1 ∧ -100 ≤ round (s * 100) ∧ round (s * 100) ≤ 100 ∧
    ∀ art : Artwork, (formatArtwork art s).matchScore = round (s * 100) := by
  obtain ⟨h1, h2⟩ := cosineSimilarity_mem_Icc h
  obtain ⟨h3, h4⟩ := round_percentage_bounds h1 h2
  exact ⟨h1, h2, h3, h4, fun art => rfl⟩

/-- Concrete instantiation of `cosineSimilarity_bounds` at a score of 1. -/
theorem cosineSimilarity_bounds_witness :
    -1 ≤ (1 : ℝ) ∧ (1 : ℝ) ≤ 1 ∧ -100 ≤ round ((1 : ℝ) * 100) ∧
    round ((1 : ℝ) * 100) ≤ 100 ∧
    ∀ art : Artwork, (formatArtwork art 1).matchScore = round ((1 : ℝ) * 100) :=
  cosineSimilarity_bounds [1] [1] 1 cosineSimilarity_self_one

/-- C5, as stated, is false: for the query `[1]` and the candidate embedding
`[-1]` the engine produces the score `-1`, which is below `0`, and the
reported percentage is `-100`, outside `[0, 100]`. -/
theorem cosineSimilarity_range_counterexample :
    cosineSimilarity [(1 : ℝ)] [-1] = .ok (-1) ∧ ¬ ((0 : ℝ) ≤ -1) ∧
    (formatArtwork ⟨1, "t", none⟩ (-1)).matchScore = -100 ∧
    ¬ ((0 : ℤ) ≤ -100) := by
  refine ⟨?_, by norm_num, ?_, by norm_num⟩
  · norm_num [cosineSimilarity, magnitude, dotProduct, Real.sqrt_one]
  · show round ((-1 : ℝ) * 100) = -100
    rw [show ((-1 : ℝ) * 100) = ((-100 : ℤ) : ℝ) by norm_num, round_intCast]

end
